import Mathlib

/-!
Verification of the enclave-builder modal (EnclaveBuilderModal.tsx).

The file shallowly embeds the modal's logic: the Run handler is a pure
function over oracle results for the two backend calls (`createEnclave`,
`runStarlarkScript`), producing a final UI state and a trace of external
events; the visualiser's node-adding, edge-synchronising and layout code
are pure functions over an explicit state record.
-/

namespace EnclaveBuilder

/-- A 2D coordinate, as reactflow's XYPosition. -/
structure XYPosition where
  x : Int
  y : Int
  deriving Repr, DecidableEq

/-- A reactflow node as used by the visualiser: identifier, position, width,
node type string, and an abstract data payload. -/
structure FlowNode where
  id : String
  position : XYPosition
  width : Int
  nodeType : String
  data : String
  deriving Repr, DecidableEq

/-- A reactflow edge as built by the edge-synchronizer effect. -/
structure FlowEdge where
  id : String
  source : String
  target : String
  animated : Bool
  strokeWidth : String
  deriving Repr, DecidableEq

/-- The kind-specific per-node record held in the variable/data map
(`KurtosisNodeData` in VariableContextProvider). Element types of ports,
environment variables and file mounts are abstracted as strings; only
their emptiness matters here. -/
inductive KurtosisNodeData
  | service (serviceName : String) (image : String) (ports : List String)
      (env : List String) (files : List String) (isValid : Bool)
  | artifact (artifactName : String) (files : List (String × String)) (isValid : Bool)
  deriving Repr, DecidableEq

/-- The validity flag of a data record. -/
def KurtosisNodeData.isValid : KurtosisNodeData → Bool
  | .service _ _ _ _ _ v => v
  | .artifact _ _ v => v

/-- The identity payload of an enclave (EnclaveFullInfo fields used here). -/
structure EnclaveInfo where
  name : String
  shortenedUuid : String
  deriving Repr, DecidableEq

/-- The response of `createEnclave`, whose `enclaveInfo` field may be absent. -/
structure CreateEnclaveResponse where
  enclaveInfo : Option EnclaveInfo
  deriving Repr, DecidableEq

/-- Oracle for the asynchronous, fallible `createEnclave` backend call. -/
inductive CreateEnclaveResult
  | err (message : String)
  | ok (value : CreateEnclaveResponse)
  deriving Repr, DecidableEq

/-- Oracle for the asynchronous `runStarlarkScript` backend call, which
either throws or yields a log iterator (abstracted away). -/
inductive RunScriptResult
  | thrown (message : String)
  | ok
  deriving Repr, DecidableEq

/-- The modal controller's component state: `isLoading` and `error`. -/
structure RunState where
  isLoading : Bool
  error : Option String
  deriving Repr, DecidableEq

/-- Externally visible events emitted while the Run handler executes. Each
backend call records the value of `isLoading` at the moment it is issued. -/
inductive RunEvent
  | createEnclaveCall (isLoadingAtCall : Bool)
  | runStarlarkCall (enclave : EnclaveInfo) (isLoadingAtCall : Bool)
  | onCloseCall
  | navigateCall (path : String)
  deriving Repr, DecidableEq

/-- Whether an event is a `createEnclave` call. -/
def RunEvent.isCreateCall : RunEvent → Bool
  | .createEnclaveCall _ => true
  | _ => false

/-- Whether an event is a `runStarlarkScript` call. -/
def RunEvent.isRunStarlarkCall : RunEvent → Bool
  | .runStarlarkCall _ _ => true
  | _ => false

/-- The tail of `handleRun` from the `isDefined(enclave)` guard onwards:
run the starlark script against the resolved enclave, then close and
navigate on success, or record the stringified error on throw. -/
def runStarlarkPhase (enclave : Option EnclaveInfo) (enclaveUUID : Option String)
    (runResult : RunScriptResult) (s : RunState) (events : List RunEvent) :
    RunState × List RunEvent :=
  match enclave with
  | none =>
      ({ s with error := some "Cannot trigger starlark run as enclave info cannot be found" },
       events)
  | some enc =>
      let events := events ++ [RunEvent.runStarlarkCall enc s.isLoading]
      match runResult with
      | .thrown message => ({ s with error := some message }, events)
      | .ok =>
          (s, events ++ [RunEvent.onCloseCall,
            RunEvent.navigateCall ("/enclave/" ++ enclaveUUID.getD "undefined" ++ "/logs")])

/-- The modal's `handleRun`, embedded as a pure function. `refMounted` is
whether `visualiserRef.current` is non-null; the two oracles stand for the
awaited results of the backend calls. Returns the final component state
and the trace of external events. -/
def handleRun (refMounted : Bool) (existingEnclave : Option EnclaveInfo)
    (createResult : CreateEnclaveResult) (runResult : RunScriptResult)
    (s0 : RunState) : RunState × List RunEvent :=
  if !refMounted then
    ({ s0 with error := some "Cannot run when no services are defined" }, [])
  else
    let s1 := { s0 with error := none }
    match existingEnclave with
    | some enclave =>
        runStarlarkPhase (some enclave) (some enclave.shortenedUuid) runResult s1 []
    | none =>
        let s2 := { s1 with isLoading := true }
        let events := [RunEvent.createEnclaveCall s2.isLoading]
        let s3 := { s2 with isLoading := false }
        match createResult with
        | .err e =>
            ({ s3 with error := some ("Could not create enclave, got: " ++ e) }, events)
        | .ok v =>
            match v.enclaveInfo with
            | none =>
                ({ s3 with
                    error := some "Did not receive enclave info when running createEnclave" },
                 events)
            | some info =>
                runStarlarkPhase (some info) (some info.shortenedUuid) runResult s3 events

/-- The Modal's `closeOnEsc` prop: escape dismissal is always off. -/
def modalCloseOnEsc : Bool := false

/-- The Close button's `isDisabled` prop. -/
def closeButtonDisabled (isLoading : Bool) : Bool := isLoading

/-- The effective close handler wired to the Modal
(`!isLoading ? onClose : () => null`): the list of events invoking it
produces. -/
def modalClose (isLoading : Bool) : List RunEvent :=
  if !isLoading then [RunEvent.onCloseCall] else []

/-- The edge-synchronizer effect body: given the previous edge list and the
entries of the dependency map computed by `getNodeDependencies` over the
data map (depending node to its list of dependency nodes), build the new
edge list. The previous state is ignored: the effect replaces the edge
list wholesale. -/
def edgeSyncEffect (_prevState : List FlowEdge) (deps : List (String × List String)) :
    List FlowEdge :=
  deps.flatMap fun entry =>
    entry.2.map fun src =>
      { id := src ++ "-" ++ entry.1, source := src, target := entry.1,
        animated := true, strokeWidth := "3px" }

/-- One dependency edge as the spec words it: identifier "source-target",
source the dependency node, target the depending node, animated, with a
3px stroke width. -/
def specDependencyEdge (src tgt : String) : FlowEdge :=
  { id := src ++ "-" ++ tgt, source := src, target := tgt,
    animated := true, strokeWidth := "3px" }

/-- The (source, target) pairs of the dependency relation: one pair per
dependency node of each depending node. -/
def dependencyPairs (deps : List (String × List String)) : List (String × String) :=
  deps.flatMap fun entry => entry.2.map fun src => (src, entry.1)

/-- The flattened dependency relation as the spec words it: one edge per
(source, target) pair of the dependency map. -/
def flattenedDependencyRelation (deps : List (String × List String)) : List FlowEdge :=
  (dependencyPairs deps).map fun p => specDependencyEdge p.1 p.2

/-- The layout function `getLayoutedElements`. The Dagre library call
(`Dagre.layout(g)` followed by `g.node(id)`) is abstracted as an oracle
assigning a position to each node identifier. An empty node list
short-circuits; otherwise each node's position is replaced by the layout
result and the edge list is passed through. -/
def getLayoutedElements (dagreLayout : String → XYPosition)
    (nodes : List FlowNode) (edges : List FlowEdge) : List FlowNode × List FlowEdge :=
  if nodes.length = 0 then
    (nodes, edges)
  else
    (nodes.map fun node => { node with position := dagreLayout node.id }, edges)

/-- The two node kinds the visualiser can add. -/
inductive NodeKind
  | service
  | artifact
  deriving Repr, DecidableEq

/-- The default data record registered for a freshly added node: service
entries with empty name, image, ports, env and files; artifact entries
with empty name and file set; both explicitly invalid. -/
def defaultNodeData : NodeKind → KurtosisNodeData
  | .service => .service "" "" [] [] [] false
  | .artifact => .artifact "" [] false

/-- The reactflow node type string used for each kind. -/
def nodeTypeName : NodeKind → String
  | .service => "serviceNode"
  | .artifact => "artifactNode"

/-- The visualiser's state: the shared variable/data map (as an
insertion-ordered entry list), the visual node list, the insertion offset
counter (`insertOffset` ref, initially 0), and the current viewport. -/
structure VisualiserState where
  data : List (String × KurtosisNodeData)
  nodes : List FlowNode
  insertOffset : Int
  viewport : XYPosition
  deriving Repr, DecidableEq

/-- Modelled from the spec: `updateData` of VariableContextProvider (not
part of this excerpt) sets the entry for the given identifier in the
shared variable/data map — overwriting in place when the key exists,
appending otherwise, as a JS record does. -/
def updateData (m : List (String × KurtosisNodeData)) (id : String)
    (d : KurtosisNodeData) : List (String × KurtosisNodeData) :=
  if m.any fun p => p.1 == id then
    m.map fun p => if p.1 == id then (id, d) else p
  else
    m ++ [(id, d)]

/-- Look an identifier up in the variable/data map. -/
def lookupData (m : List (String × KurtosisNodeData)) (id : String) :
    Option KurtosisNodeData :=
  (m.find? fun p => p.1 == id).map Prod.snd

/-- The `getNewNodePosition` helper: reads the viewport, increments the
insertion offset counter, and returns the staggered position together
with the new counter value. -/
def getNewNodePosition (viewport : XYPosition) (insertOffset : Int) :
    XYPosition × Int :=
  let offset := insertOffset + 1
  ({ x := -viewport.x + offset * 20 + 400, y := -viewport.y + offset * 20 }, offset)

/-- The shared body of `handleAddServiceNode` / `handleAddArtifactNode`:
generate the given fresh identifier, register the default data record for
the kind, and append a visual node of width 600 at the staggered
position. -/
def handleAddNode (kind : NodeKind) (id : String) (s : VisualiserState) :
    VisualiserState :=
  let data := updateData s.data id (defaultNodeData kind)
  let posAndOffset := getNewNodePosition s.viewport s.insertOffset
  { s with
    data := data
    insertOffset := posAndOffset.2
    nodes := s.nodes ++ [{ id := id, position := posAndOffset.1, width := 600,
                           nodeType := nodeTypeName kind, data := "" }] }

/-- The ReactFlow `onMove` handler: panning or zooming the view sets the
insertion offset counter to 1 and installs the new viewport. -/
def onMoveStep (newViewport : XYPosition) (s : VisualiserState) : VisualiserState :=
  { s with insertOffset := 1, viewport := newViewport }

/-- The visualiser's initial state: empty data map and node list, insertion
offset 0 (`useRef(0)`), viewport at the origin. -/
def initialVisualiserState : VisualiserState :=
  { data := [], nodes := [], insertOffset := 0, viewport := { x := 0, y := 0 } }

/-- Run a sequence of add-node actions, each carrying its kind and the
fresh identifier produced by `uuidv4`. -/
def runAddNodes (actions : List (NodeKind × String)) (s : VisualiserState) :
    VisualiserState :=
  actions.foldl (fun s a => handleAddNode a.1 a.2 s) s

/-- The initial graph state handed to the providers by the modal's memo. -/
structure InitialGraphState where
  nodes : List FlowNode
  edges : List FlowEdge
  data : List (String × KurtosisNodeData)
  error : Option String
  deriving Repr, DecidableEq

/-- The filtering of the parsed data map in the modal's initial-state memo:
keep exactly the entries whose key is the identifier of some parsed node
(`Object.entries(...).filter(([id, _]) => nodes.some(node => node.id === id))`). -/
def filterInitialData (nodes : List FlowNode)
    (entries : List (String × KurtosisNodeData)) :
    List (String × KurtosisNodeData) :=
  entries.filter fun entry => nodes.any fun node => node.id == entry.1

/-- The modal's initial-state memo over the result of
`getInitialGraphStateFromEnclave`: on parse failure set the error and
yield empty graph state; on success pass nodes and edges through and
filter the data map to keys with a corresponding node. -/
def initialGraphState
    (parseResult :
      Except String (List FlowNode × List FlowEdge × List (String × KurtosisNodeData))) :
    InitialGraphState :=
  match parseResult with
  | .error e => { nodes := [], edges := [], data := [], error := some e }
  | .ok (ns, es, d) =>
      { nodes := ns, edges := es, data := filterInitialData ns d, error := none }

/-! Helper lemmas (shared; none of these settles a claim by itself). -/

/-- Setting a key absent from the map appends the entry at the end. -/
theorem updateData_fresh (m : List (String × KurtosisNodeData)) (id : String)
    (d : KurtosisNodeData) (h : ∀ p ∈ m, p.1 ≠ id) :
    updateData m id d = m ++ [(id, d)] := by
  unfold updateData
  have hany : (m.any fun p => p.1 == id) = false := by
    simp only [List.any_eq_false, beq_iff_eq]
    exact h
  simp [hany]

/-- Looking up a key absent from the left part of an appended map reduces
to a lookup in the right part. -/
theorem lookupData_append_fresh (m m' : List (String × KurtosisNodeData))
    (id : String) (h : ∀ p ∈ m, p.1 ≠ id) :
    lookupData (m ++ m') id = lookupData m' id := by
  induction m with
  | nil => simp
  | cons p rest ih =>
      have hp : (p.1 == id) = false := by
        simp only [beq_eq_false_iff_ne]
        exact h p (List.mem_cons_self p rest)
      simp only [List.cons_append, lookupData, List.find?_cons, hp]
      exact ih fun q hq => h q (List.mem_cons_of_mem p hq)

/-- In the entry list built from a sequence of add actions with pairwise
distinct identifiers, each action's identifier maps to the default record
of its kind. -/
theorem lookupData_map_of_nodup (actions : List (NodeKind × String))
    (a : NodeKind × String) (ha : a ∈ actions)
    (hnodup : (actions.map Prod.snd).Nodup) :
    lookupData (actions.map fun b => (b.2, defaultNodeData b.1)) a.2 =
      some (defaultNodeData a.1) := by
  induction actions with
  | nil => cases ha
  | cons b rest ih =>
      simp only [List.map_cons, List.nodup_cons, List.mem_map] at hnodup
      by_cases hb : b.2 = a.2
      · have hab : a = b := by
          rcases List.mem_cons.mp ha with h | h
          · exact h
          · exact absurd ⟨a, h, hb.symm⟩ hnodup.1
        subst hab
        simp [lookupData, List.find?_cons]
      · have ha' : a ∈ rest := by
          rcases List.mem_cons.mp ha with h | h
          · exact absurd (h ▸ rfl) hb
          · exact h
        have hbeq : (b.2 == a.2) = false := by
          simp only [beq_eq_false_iff_ne]
          exact hb
        simp only [List.map_cons, lookupData, List.find?_cons, hbeq]
        exact ih ha' hnodup.2

/-- Running a sequence of add actions whose identifiers are pairwise
distinct and fresh for the starting map appends one default entry per
action to the data map. -/
theorem runAddNodes_data_eq (actions : List (NodeKind × String))
    (s0 : VisualiserState)
    (hnodup : (actions.map Prod.snd).Nodup)
    (hfresh : ∀ a ∈ actions, ∀ p ∈ s0.data, p.1 ≠ a.2) :
    (runAddNodes actions s0).data =
      s0.data ++ actions.map fun a => (a.2, defaultNodeData a.1) := by
  induction actions generalizing s0 with
  | nil => simp [runAddNodes]
  | cons a rest ih =>
      simp only [List.map_cons, List.nodup_cons, List.mem_map] at hnodup
      have hstep : (handleAddNode a.1 a.2 s0).data =
          s0.data ++ [(a.2, defaultNodeData a.1)] := by
        simp only [handleAddNode]
        exact updateData_fresh s0.data a.2 (defaultNodeData a.1)
          fun p hp => hfresh a (List.mem_cons_self a rest) p hp
      have hrest : ∀ b ∈ rest, ∀ p ∈ (handleAddNode a.1 a.2 s0).data, p.1 ≠ b.2 := by
        intro b hb p hp
        rw [hstep] at hp
        rcases List.mem_append.mp hp with h | h
        · exact hfresh b (List.mem_cons_of_mem a hb) p h
        · have : p = (a.2, defaultNodeData a.1) := by simpa using h
          rw [this]
          intro hcontra
          exact hnodup.1 ⟨b, hb, hcontra.symm⟩
      have : runAddNodes (a :: rest) s0 = runAddNodes rest (handleAddNode a.1 a.2 s0) := rfl
      rw [this, ih (handleAddNode a.1 a.2 s0) hnodup.2 hrest, hstep]
      simp

/-! Theorems settling the claims. -/

/-- C1: after the edge-synchronizer effect runs, the edge list equals
exactly the flattened dependency relation over the data map — one edge per
(source, target) pair, identifier "source-target", source the dependency
node, target the depending node, animated with a 3px stroke width — and
the previous edge list is wholly replaced (the result does not depend on
it). -/
theorem c1_edge_sync_is_flattened_dependency_relation :
    ∀ (prevState : List FlowEdge) (deps : List (String × List String)),
    edgeSyncEffect prevState deps = flattenedDependencyRelation deps := by
  intro prevState deps
  unfold edgeSyncEffect flattenedDependencyRelation dependencyPairs
  rw [List.map_flatMap]
  congr 1
  funext entry
  rw [List.map_map]
  rfl

/-- C2: when the visualiser ref is not mounted, the Run handler sets the
error to exactly "Cannot run when no services are defined", makes no
backend call (the event trace is empty), and changes no other state. -/
theorem c2_run_unmounted_ref_sets_error_only :
    ∀ (existingEnclave : Option EnclaveInfo) (createResult : CreateEnclaveResult)
      (runResult : RunScriptResult) (s0 : RunState),
    handleRun false existingEnclave createResult runResult s0 =
      ({ s0 with error := some "Cannot run when no services are defined" }, []) := by
  intro existingEnclave createResult runResult s0
  rfl

/-- C3: with a pre-existing enclave the Run handler never calls
createEnclave, and the only backend call it makes is runStarlarkScript
against that existing enclave — shown by the exact event traces for the
throwing and succeeding run oracles. -/
theorem c3_run_existing_enclave_never_creates :
    ∀ (e : EnclaveInfo) (refMounted : Bool) (createResult : CreateEnclaveResult)
      (runResult : RunScriptResult) (s0 : RunState) (m : String),
    ((handleRun refMounted (some e) createResult runResult s0).2.any
        RunEvent.isCreateCall) = false ∧
    handleRun true (some e) createResult (.thrown m) s0 =
      ({ s0 with error := some m }, [RunEvent.runStarlarkCall e s0.isLoading]) ∧
    handleRun true (some e) createResult .ok s0 =
      ({ s0 with error := none },
       [RunEvent.runStarlarkCall e s0.isLoading, RunEvent.onCloseCall,
        RunEvent.navigateCall ("/enclave/" ++ e.shortenedUuid ++ "/logs")]) := by
  intro e refMounted createResult runResult s0 m
  refine ⟨?_, rfl, ?_⟩
  · cases refMounted with
    | false => rfl
    | true => cases runResult <;> simp [handleRun, runStarlarkPhase, RunEvent.isCreateCall]
  · simp [handleRun, runStarlarkPhase]

/-- C4: with no pre-existing enclave (and the ref mounted) the Run handler
always issues the createEnclave call first, and when createEnclave fails
it sets the error to "Could not create enclave, got: <cause>" and halts
with no runStarlarkScript call. -/
theorem c4_create_first_and_halt_on_create_error :
    ∀ (createResult : CreateEnclaveResult) (runResult : RunScriptResult)
      (s0 : RunState) (msg : String),
    (handleRun true none createResult runResult s0).2.head? =
      some (RunEvent.createEnclaveCall true) ∧
    handleRun true none (.err msg) runResult s0 =
      ({ s0 with
          isLoading := false,
          error := some ("Could not create enclave, got: " ++ msg) },
       [RunEvent.createEnclaveCall true]) := by
  intro createResult runResult s0 msg
  refine ⟨?_, rfl⟩
  cases createResult with
  | err m => rfl
  | ok v =>
      cases v with
      | mk info =>
          cases info with
          | none => rfl
          | some i => cases runResult <;> simp [handleRun, runStarlarkPhase]

/-- C5: with no pre-existing enclave, when createEnclave succeeds but the
response lacks the enclaveInfo payload, the Run handler sets the error to
exactly "Did not receive enclave info when running createEnclave" and
halts: the trace holds the createEnclave call and nothing else. -/
theorem c5_halt_on_missing_enclave_info :
    ∀ (runResult : RunScriptResult) (s0 : RunState),
    handleRun true none (.ok { enclaveInfo := none }) runResult s0 =
      ({ s0 with
          isLoading := false,
          error := some "Did not receive enclave info when running createEnclave" },
       [RunEvent.createEnclaveCall true]) := by
  intro runResult s0
  rfl

/-- C6 counterexample: running against an existing enclave, the
runStarlarkScript call is issued while isLoading is false, so the close
button and backdrop dismissal are not disabled during the run — the claim
that they stay disabled until runStarlarkScript has resolved or failed is
false. -/
theorem c6_counterexample_close_enabled_during_run :
    (handleRun true (some { name := "e", shortenedUuid := "abc" })
        (.ok { enclaveInfo := none }) .ok { isLoading := false, error := none }).2 =
      [RunEvent.runStarlarkCall { name := "e", shortenedUuid := "abc" } false,
       RunEvent.onCloseCall, RunEvent.navigateCall "/enclave/abc/logs"] ∧
    closeButtonDisabled false = false ∧
    modalClose false = [RunEvent.onCloseCall] := by
  exact ⟨rfl, rfl, rfl⟩

/-- C6 amended: closing the modal is a no-op exactly while isLoading (and
invokes the close callback otherwise), escape dismissal is always off,
and isLoading is true only around the createEnclave await: every
createEnclave call in the trace is issued with the close controls
disabled, and every runStarlarkScript call with them enabled. -/
theorem c6_close_noop_only_while_loading :
    ∀ (existingEnclave : Option EnclaveInfo) (createResult : CreateEnclaveResult)
      (runResult : RunScriptResult) (s0 : RunState),
    s0.isLoading = false →
    modalClose true = [] ∧
    modalClose false = [RunEvent.onCloseCall] ∧
    modalCloseOnEsc = false ∧
    (∀ b, RunEvent.createEnclaveCall b ∈
        (handleRun true existingEnclave createResult runResult s0).2 →
      closeButtonDisabled b = true) ∧
    (∀ e b, RunEvent.runStarlarkCall e b ∈
        (handleRun true existingEnclave createResult runResult s0).2 →
      closeButtonDisabled b = false) := by
  intro existingEnclave createResult runResult s0 h0
  refine ⟨rfl, rfl, rfl, ?_, ?_⟩
  · intro b hb
    cases existingEnclave with
    | some e =>
        exfalso
        cases runResult <;> simp [handleRun, runStarlarkPhase] at hb
    | none =>
        cases createResult with
        | err m => simp [handleRun] at hb; simp [closeButtonDisabled, hb]
        | ok v =>
            cases hv : v.enclaveInfo with
            | none =>
                simp [handleRun, hv] at hb
                simp [closeButtonDisabled, hb]
            | some i =>
                cases runResult <;>
                  simp [handleRun, runStarlarkPhase, hv] at hb <;>
                  simp [closeButtonDisabled, hb]
  · intro e b hb
    cases existingEnclave with
    | some e' =>
        cases runResult <;> simp [handleRun, runStarlarkPhase] at hb <;>
          simp [closeButtonDisabled, hb.2, h0]
    | none =>
        cases createResult with
        | err m => simp [handleRun] at hb
        | ok v =>
            cases hv : v.enclaveInfo with
            | none => simp [handleRun, hv] at hb
            | some i =>
                cases runResult <;>
                  simp [handleRun, runStarlarkPhase, hv] at hb <;>
                  simp [closeButtonDisabled, hb.2]

/-- C6 amended witness at a concrete input. -/
theorem c6_close_noop_only_while_loading_witness : modalCloseOnEsc = false :=
  (c6_close_noop_only_while_loading (some { name := "e", shortenedUuid := "abc" })
    (.ok { enclaveInfo := none }) .ok { isLoading := false, error := none }
    rfl).2.2.1

/-- C7: a sequence of N add-service/add-artifact actions with the N
distinct identifiers produced by uuidv4 registers N corresponding entries
in the variable/data map, each the default record of its kind with the
validity flag false (service entries with empty name, image, ports, env
and files; artifact entries with empty name and file set). -/
theorem c7_add_nodes_registers_default_invalid_entries :
    ∀ (actions : List (NodeKind × String)) (s0 : VisualiserState),
    (actions.map Prod.snd).Nodup →
    (∀ a ∈ actions, ∀ p ∈ s0.data, p.1 ≠ a.2) →
    (runAddNodes actions s0).data.length = s0.data.length + actions.length ∧
    (∀ a ∈ actions,
      lookupData (runAddNodes actions s0).data a.2 = some (defaultNodeData a.1)) ∧
    defaultNodeData .service = .service "" "" [] [] [] false ∧
    defaultNodeData .artifact = .artifact "" [] false ∧
    (∀ k, (defaultNodeData k).isValid = false) := by
  intro actions s0 hnodup hfresh
  have hdata := runAddNodes_data_eq actions s0 hnodup hfresh
  refine ⟨?_, ?_, rfl, rfl, ?_⟩
  · rw [hdata]
    simp
  · intro a ha
    rw [hdata, lookupData_append_fresh _ _ _ fun p hp => hfresh a ha p hp]
    exact lookupData_map_of_nodup actions a ha hnodup
  · intro k
    cases k <;> rfl

/-- C7 witness at a concrete two-action sequence. -/
theorem c7_add_nodes_registers_default_invalid_entries_witness :
    (runAddNodes [(NodeKind.service, "a"), (NodeKind.artifact, "b")]
        initialVisualiserState).data.length =
      initialVisualiserState.data.length + 2 :=
  (c7_add_nodes_registers_default_invalid_entries
    [(NodeKind.service, "a"), (NodeKind.artifact, "b")] initialVisualiserState
    (by decide) (by decide)).1

/-- C8 counterexample: panning the view does not reset the insertion
offset counter to its initial value — the counter starts at 0 but the
onMove handler sets it to 1, already when fired at the initial state. -/
theorem c8_counterexample_pan_does_not_restore_initial :
    (onMoveStep { x := 0, y := 0 } initialVisualiserState).insertOffset = 1 ∧
    initialVisualiserState.insertOffset = 0 ∧
    (onMoveStep { x := 0, y := 0 } initialVisualiserState).insertOffset ≠
      initialVisualiserState.insertOffset := by
  refine ⟨rfl, rfl, ?_⟩
  decide

/-- C8 amended: each insertion increments the offset counter by one and
places the new node at x = -viewport.x + counter*20 + 400,
y = -viewport.y + counter*20 using the incremented counter; the counter
starts at 0, and panning the view sets it to 1 (one more than its initial
value), not back to 0. -/
theorem c8_insertion_positions_and_counter :
    ∀ (s : VisualiserState) (kind : NodeKind) (id : String) (vp : XYPosition),
    (handleAddNode kind id s).insertOffset = s.insertOffset + 1 ∧
    (handleAddNode kind id s).nodes = s.nodes ++
      [{ id := id,
         position := { x := -s.viewport.x + (s.insertOffset + 1) * 20 + 400,
                       y := -s.viewport.y + (s.insertOffset + 1) * 20 },
         width := 600, nodeType := nodeTypeName kind, data := "" }] ∧
    (onMoveStep vp s).insertOffset = 1 ∧
    initialVisualiserState.insertOffset = 0 := by
  intro s kind id vp
  exact ⟨rfl, rfl, rfl, rfl⟩

/-- C9: the layout function returns its input unchanged on an empty node
list; otherwise it passes the edge list through exactly and replaces only
each node's position with the layout result, leaving id, width, node type
and data payload untouched. -/
theorem c9_layout_replaces_only_positions :
    ∀ (dagreLayout : String → XYPosition) (nodes : List FlowNode)
      (edges : List FlowEdge),
    getLayoutedElements dagreLayout [] edges = ([], edges) ∧
    (getLayoutedElements dagreLayout nodes edges).2 = edges ∧
    (∀ i : Nat, ((getLayoutedElements dagreLayout nodes edges).1)[i]? =
      (nodes[i]?).map fun n => { n with position := dagreLayout n.id }) := by
  intro dagreLayout nodes edges
  refine ⟨rfl, ?_, ?_⟩
  · unfold getLayoutedElements
    by_cases h : nodes.length = 0 <;> simp [h]
  · intro i
    unfold getLayoutedElements
    by_cases h : nodes.length = 0
    · have hnil : nodes = [] := List.length_eq_zero.mp h
      subst hnil
      simp
    · simp [h]

/-- C10: on a successful parse, the data map handed to the provider keeps
exactly the entries whose key is the identifier of some parsed node —
entries with no corresponding node are dropped — while nodes and edges
are passed through unchanged. -/
theorem c10_initial_data_filtered_to_node_ids :
    ∀ (ns : List FlowNode) (es : List FlowEdge)
      (d : List (String × KurtosisNodeData)) (entry : String × KurtosisNodeData),
    (entry ∈ (initialGraphState (.ok (ns, es, d))).data ↔
      entry ∈ d ∧ ∃ n ∈ ns, n.id = entry.1) ∧
    (initialGraphState (.ok (ns, es, d))).nodes = ns ∧
    (initialGraphState (.ok (ns, es, d))).edges = es := by
  intro ns es d entry
  refine ⟨?_, rfl, rfl⟩
  simp [initialGraphState, filterInitialData, List.mem_filter, List.any_eq_true]

/-- C10 witness at a concrete parse result: the entry with a matching node
is kept. -/
theorem c10_initial_data_filtered_to_node_ids_witness :
    ("a", defaultNodeData NodeKind.service) ∈
      (initialGraphState (.ok
        ([{ id := "a", position := { x := 0, y := 0 }, width := 600,
            nodeType := "serviceNode", data := "" }],
         [],
         [("a", defaultNodeData NodeKind.service),
          ("b", defaultNodeData NodeKind.artifact)]))).data :=
  ((c10_initial_data_filtered_to_node_ids
      [{ id := "a", position := { x := 0, y := 0 }, width := 600,
         nodeType := "serviceNode", data := "" }]
      []
      [("a", defaultNodeData NodeKind.service),
       ("b", defaultNodeData NodeKind.artifact)]
      ("a", defaultNodeData NodeKind.service)).1).mpr (by decide)

end EnclaveBuilder
